import Mathlib

/-!
Shallow embedding of `nilmtk/reddstore.py`: the REDD dataset adapter.

Python dictionaries with a fixed key set are modelled as structures with
`Option` fields (`none` = key absent); the per-house `labels.dat` file and the
static label table are modelled as association lists in insertion order, with
Python's insert-or-overwrite update semantics.  Fallible operations return
`Except Err _`, where `Err` distinguishes the Python exception classes raised
by the code (`ValueError`, `KeyError`, `IOError`, `AssertionError`,
`IndexError`).
-/

namespace Redd

/-- A measurement tag such as `Power('active')`.  Modelled from the spec: the
measurement-tag type used to label the value column lives in
`nilmtk.measurement`, which is not under `src/`; the spec describes it only as
"a measurement-tag type used to label the value column". -/
inductive Measurement where
  | power (ac_type : String)
deriving DecidableEq

/-- One appliance dict inside a label-table entry, e.g.
`{'type': 'smoke alarm', 'multiple': True}`.  The `instance` key (absent in the
static table, written by `load_metadata`) is the field `inst`. -/
structure Appliance where
  type : String
  multiple : Option Bool := none
  inst : Option Nat := none
deriving DecidableEq

/-- A `{'name': ...}` room dict. -/
structure Room where
  name : String
deriving DecidableEq

/-- One value of `MAP_REDD_LABELS_TO_NILMTK`: a dict with optional
`appliances`, `room` and `category` keys. -/
structure LabelMapEntry where
  appliances : Option (List Appliance) := none
  room : Option Room := none
  category : Option String := none
deriving DecidableEq

/-- The static table `MAP_REDD_LABELS_TO_NILMTK`, in source order. -/
def MAP_REDD_LABELS_TO_NILMTK : List (String × LabelMapEntry) :=
  [ ("air_conditioning", { appliances := some [{ type := "air conditioner" }] }),
    ("bathroom_gfi", { room := some ⟨"bathroom"⟩, category := some "misc" }),
    ("dishwaser", { appliances := some [{ type := "dish washer" }] }),
    ("disposal", { appliances := some [{ type := "waste disposal unit" }] }),
    ("electric_heat", { appliances := some [{ type := "electric space heater" }] }),
    ("electronics", { category := some "consumer electronics" }),
    ("furance", { appliances := some [{ type := "electric boiler" }] }),
    ("kitchen_outlets", { room := some ⟨"kitchen"⟩, category := some "sockets" }),
    ("lighting", { category := some "lighting" }),
    ("microwave", { appliances := some [{ type := "microwave" }] }),
    ("miscellaeneous", { category := some "misc" }),
    ("outdoor_outlets", { room := some ⟨"outdoors"⟩, category := some "sockets" }),
    ("outlets_unknown", { category := some "sockets" }),
    ("oven", { appliances := some [{ type := "electric oven" }] }),
    ("refrigerator", { appliances := some [{ type := "fridge" }] }),
    ("smoke_alarms", { appliances := some [{ type := "smoke alarm", multiple := some true }] }),
    ("stove", { appliances := some [{ type := "electric stove" }] }),
    ("subpanel", {}),
    ("washer_dryer", { appliances := some [{ type := "washer dryer" }] }) ]

/-- Python `dict[k]` lookup on an association list with unique keys. -/
def lookupLabel (labels : List (Nat × String)) (c : Nat) : Option String :=
  (labels.find? (fun p => p.1 == c)).map (fun p => p.2)

/-- Python `dict[k]` lookup for the static label table. -/
def lookupMapEntry (table : List (String × LabelMapEntry)) (lab : String) :
    Option LabelMapEntry :=
  (table.find? (fun p => p.1 == lab)).map (fun p => p.2)

/-- Python `d[k] = v` on a dict represented as an association list:
overwrite in place if the key exists, else append. -/
def dictInsertLabel (d : List (Nat × String)) (c : Nat) (lab : String) :
    List (Nat × String) :=
  if d.any (fun p => p.1 == c) then
    d.map (fun p => if p.1 == c then (c, lab) else p)
  else
    d ++ [(c, lab)]

/-- `load_labels`: builds the channel-number → label dict from the parsed
rows of `labels.dat` (`labels[int(line[0])] = line[1].strip()`).  The raw
text-level parsing (splitting each line on a space, parsing the integer) is
abstracted: the file content is modelled as the list of already-split rows. -/
def load_labels (lines : List (Nat × String)) : List (Nat × String) :=
  lines.foldl (fun d line => dictInsertLabel d line.1 line.2) []

/-- One `house_{b}` directory: its `labels.dat` (if present) and its
`channel_{n}.dat` files, each a list of whitespace-separated
(unix-timestamp, power-value) rows.  The float32 power values are modelled as
opaque integers: no claim involves arithmetic on them. -/
structure House where
  labelsFile : Option (List (Nat × String)) := none
  channelFiles : List (Nat × List (Int × Int)) := []
deriving DecidableEq

/-- The on-disk state under the store's root path: which `house_{b}`
directories exist and what they contain. -/
structure Fs where
  houses : List (Nat × House)
deriving DecidableEq

/-- `os.path.isdir(root/house_{b})` plus directory content. -/
def Fs.house (fs : Fs) (b : Nat) : Option House :=
  (fs.houses.find? (fun p => p.1 == b)).map (fun p => p.2)

/-- `channel_{m}.dat` inside a house directory, `none` when the file is
missing. -/
def House.channelFile (h : House) (m : Nat) : Option (List (Int × Int)) :=
  (h.channelFiles.find? (fun p => p.1 == m)).map (fun p => p.2)

/-- The Python exception classes the module can raise. -/
inductive Err where
  | valueError (msg : String)
  | keyErrorNat (k : Nat)
  | keyErrorStr (k : String)
  | ioError (filename : String)
  | assertionError
  | indexError
  | typeError
deriving DecidableEq

instance exceptDecEq {ε α : Type} [DecidableEq ε] [DecidableEq α] :
    DecidableEq (Except ε α)
  | .error e, .error f => decidable_of_iff (e = f) (by simp)
  | .error _, .ok _ => isFalse (by simp)
  | .ok _, .error _ => isFalse (by simp)
  | .ok a, .ok b => decidable_of_iff (a = b) (by simp)

/-- `True` exactly on `ValueError` (the "invalid-input error" of the spec). -/
def isInvalidInput {α : Type} : Except Err α → Bool
  | .error (.valueError _) => true
  | _ => false

/-- Modelled from the spec: the `Key` type from `nilmtk.datastore` is not under
`src/`; the spec describes it as an opaque identifier with accessors for
building number, meter number and utility name.  A root query (`'/'` in
`load_metadata`, `None` or `'/'` in `elements_below_key`) is modelled as the
key argument being `none`; any other key as a parsed `Key`. -/
structure Key where
  building : Nat
  meter : Option Nat := none
  utility : Option String := none
deriving DecidableEq

/-- `{'lower_limit': ..., 'upper_limit': ...}` for one measurement. -/
structure MeasurementLimits where
  lower_limit : Nat
  upper_limit : Nat
deriving DecidableEq

/-- One entry of the whole-dataset `meter_devices` dict. -/
structure MeterDevice where
  model : Option String := none
  manufacturer : Option String := none
  manufacturer_url : Option String := none
  sample_period : Nat
  max_sample_period : Nat
  measurements : List Measurement
  measurement_limits : List (Measurement × MeasurementLimits)
deriving DecidableEq

/-- The dict returned by `load_metadata('/')`: `meter_devices` with its two
fixed entries. -/
structure DatasetMetadata where
  eMonitor : MeterDevice
  REDD_whole_house : MeterDevice
deriving DecidableEq

/-- The dict returned for a building-only key.  The Python key `instance` is
the field `inst`. -/
structure BuildingMetadata where
  inst : Nat
  dataset : String
  original_name : String
deriving DecidableEq

/-- The `meter_metadata` dict: fixed keys plus the optional keys merged in
from the label table (`appliances`, `room`, `category`) and the
mains/submeter keys.  The Python key `instance` is the field `inst`. -/
structure MeterMetadata where
  device_model : String
  inst : Nat
  building : Nat
  dataset : String
  site_meter : Option Bool := none
  additional_channels : Option (List Nat) := none
  submeter_of : Option Nat := none
  appliances : Option (List Appliance) := none
  room : Option Room := none
  category : Option String := none
deriving DecidableEq

/-- The three shapes of dict `load_metadata` can return, by key specificity. -/
inductive Metadata where
  | dataset (d : DatasetMetadata)
  | building (b : BuildingMetadata)
  | meter (m : MeterMetadata)
deriving DecidableEq

/-- The literal whole-dataset metadata returned for key `'/'`. -/
def whole_dataset_metadata : DatasetMetadata :=
  { eMonitor :=
      { model := some "eMonitor",
        manufacturer := some "Powerhouse Dynamics",
        manufacturer_url := some "http://powerhousedynamics.com",
        sample_period := 3,
        max_sample_period := 50,
        measurements := [.power "active"],
        measurement_limits := [(.power "active", ⟨0, 5000⟩)] },
    REDD_whole_house :=
      { sample_period := 1,
        max_sample_period := 30,
        measurements := [.power "active"],
        measurement_limits := [(.power "active", ⟨0, 50000⟩)] } }

/-- The loop body of the appliance-instance count:
`instance = 1; for i in range(1, meter): if labels[i] == redd_label: instance += 1`.
`labels[i]` is a plain dict subscript, so a channel number `i` missing from the
labels dict raises `KeyError(i)` exactly as in Python, even when its label
would not have matched. -/
def instance_loop (labels : List (Nat × String)) (redd_label : String) :
    List Nat → Nat → Except Err Nat
  | [], inst => .ok inst
  | i :: is, inst =>
    match lookupLabel labels i with
    | none => .error (.keyErrorNat i)
    | some l => instance_loop labels redd_label is (if l == redd_label then inst + 1 else inst)

/-- The instance number computed for each appliance of the requested meter:
the loop above run over `range(1, meter)` starting from 1. -/
def appliance_instance (labels : List (Nat × String)) (redd_label : String)
    (meter : Nat) : Except Err Nat :=
  instance_loop labels redd_label (List.range' 1 (meter - 1)) 1

/-- `for appliance_i, appliance in enumerate(appliances): ...
appliances[appliance_i]['instance'] = instance` — every appliance dict in the
(copied) list gets the same computed instance number, in list order; a
`KeyError` inside the count aborts at the first appliance. -/
def assign_instances (labels : List (Nat × String)) (redd_label : String)
    (meter : Nat) : List Appliance → Except Err (List Appliance)
  | [] => .ok []
  | a :: rest => do
    let n ← appliance_instance labels redd_label meter
    let rest2 ← assign_instances labels redd_label meter rest
    return { a with inst := some n } :: rest2

/-- `meter_metadata.update(deepcopy(MAP_REDD_LABELS_TO_NILMTK[redd_label]))`:
dict update copies the keys present in the (deep-copied) entry over the
metadata dict; keys absent from the entry are left unchanged. -/
def updateWithEntry (mm : MeterMetadata) (e : LabelMapEntry) : MeterMetadata :=
  { mm with
    appliances := match e.appliances with | some a => some a | none => mm.appliances,
    room := match e.room with | some r => some r | none => mm.room,
    category := match e.category with | some c => some c | none => mm.category }

/-- `REDDStore.load_metadata`, with the static table and the on-disk state as
explicit inputs.  Mirrors the source's order of checks: root key, building
range, building-only key, meter 1, meter 2, house-directory assertion,
labels-file read, label lookup, static-table lookup, instance assignment. -/
def load_metadata (table : List (String × LabelMapEntry)) (fs : Fs)
    (key : Option Key) : Except Err Metadata :=
  match key with
  | none => .ok (.dataset whole_dataset_metadata)
  | some k =>
    if ¬ (1 ≤ k.building ∧ k.building ≤ 6) then
      .error (.valueError ("Building " ++ toString k.building ++
        " is not a valid building instance."))
    else
      match k.meter with
      | none =>
        .ok (.building { inst := k.building, dataset := "REDD",
                         original_name := "house_" ++ toString k.building })
      | some m =>
        let base : MeterMetadata :=
          { device_model := if m = 1 then "REDD_whole_house" else "eMonitor",
            inst := m, building := k.building, dataset := "REDD" }
        if m = 1 then
          .ok (.meter { base with site_meter := some true,
                                  additional_channels := some [2] })
        else if m = 2 then
          .error (.valueError "Mains channel 2 is loaded by meter1.")
        else
          let base2 : MeterMetadata := { base with submeter_of := some 1 }
          match fs.house k.building with
          | none => .error .assertionError
          | some house =>
            match house.labelsFile with
            | none => .error (.ioError "labels.dat")
            | some lines =>
              let labels := load_labels lines
              match lookupLabel labels m with
              | none =>
                .error (.valueError (toString m ++
                  " is not a recognised meter instance for building " ++
                  toString k.building ++ "."))
              | some redd_label =>
                match lookupMapEntry table redd_label with
                | none => .error (.keyErrorStr redd_label)
                | some entry =>
                  let mm := updateWithEntry base2 entry
                  match mm.appliances with
                  | none => .ok (.meter mm)
                  | some apps =>
                    match assign_instances labels redd_label m apps with
                    | .error e => .error e
                    | .ok apps2 => .ok (.meter { mm with appliances := some apps2 })

/-- The Python code merges a `deepcopy` of the table entry into the fresh
result dict and writes the instance numbers into that copy, so the global
table object visible after the call is unchanged.  This wrapper makes the
table state explicit: it returns the metadata together with the post-call
table, which — because every write targets the deep copy — is the input
table itself. -/
def load_metadata_run (table : List (String × LabelMapEntry)) (fs : Fs)
    (key : Option Key) : Except Err Metadata × List (String × LabelMapEntry) :=
  (load_metadata table fs key, table)

/-- `REDDStore.elements_below_key`, with the on-disk state explicit.  Mirrors
the source's order: root key, `assert key_obj.meter is None`, building-range
check, utility check, house-directory assertion, labels read, comprehension
over `labels.keys()` filtering out channel 2. -/
def elements_below_key (fs : Fs) (key : Option Key) : Except Err (List String) :=
  match key with
  | none => .ok ((List.range' 1 6).map (fun b => "building" ++ toString b))
  | some k =>
    match k.meter with
    | some _ => .error .assertionError
    | none =>
      if ¬ (1 ≤ k.building ∧ k.building ≤ 6) then
        .error (.valueError ("Building " ++ toString k.building ++
          " is not a valid building instance."))
      else
        match k.utility with
        | none => .ok ["electric"]
        | some _ =>
          match fs.house k.building with
          | none => .error .assertionError
          | some house =>
            match house.labelsFile with
            | none => .error (.ioError "labels.dat")
            | some lines =>
              let labels := load_labels lines
              .ok ((labels.filter (fun p => !([2].contains p.1))).map
                (fun p => "meter" ++ toString p.1))

/-- Modelled from the spec: the `TimeFrame` type from `nilmtk.timeframe` is
not under `src/`; the spec describes it as "a generic windowed-time-range
type offering 'slice data to this range' and interval containment".  Times are
in the nanosecond unit of the converted index.  `end_` is the Python
attribute `end`; `include_end` is the flag `load` sets on the whole-channel
span. -/
structure TimeFrame where
  start : Int
  end_ : Int
  include_end : Bool := false
deriving DecidableEq

/-- One yielded DataFrame: its (index, value) rows, the `timeframe` attribute,
and the `look_ahead` attribute attached by slicing. -/
structure DF where
  rows : List (Int × Int)
  timeframe : TimeFrame
  look_ahead : List (Int × Int) := []
deriving DecidableEq

/-- `pd.to_datetime((df.index.values*1E9).astype(int))`: unix seconds to
nanoseconds. -/
def NANOS_PER_SEC : Int := 1000000000

/-- Index conversion applied to one row. -/
def to_ns (r : Int × Int) : Int × Int := (r.1 * NANOS_PER_SEC, r.2)

/-- The number of look-ahead rows a slice carries.  Modelled from the spec:
"a small look-ahead buffer of rows following the window's end"; the exact
count lives in `nilmtk.timeframe`, not under `src/`. -/
def n_look_ahead_rows : Nat := 10

/-- Modelled from the spec: `TimeFrame.slice` from `nilmtk.timeframe` is not
under `src/`.  Per the spec and the `load` docstring, a slice is the data
"restricted to that window", "tagged with the intersected span plus a small
look-ahead buffer of rows following the window's end"; "the first row [of
`look_ahead`] will be for `period.end`".  Window containment is taken
inclusive at both ends, matching pandas label slicing. -/
def TimeFrame.slice (w : TimeFrame) (df : DF) : DF :=
  { rows := df.rows.filter (fun r => decide (w.start ≤ r.1) && decide (r.1 ≤ w.end_)),
    timeframe :=
      { start := max w.start df.timeframe.start,
        end_ := min w.end_ df.timeframe.end_,
        include_end := w.include_end },
    look_ahead := (df.rows.filter (fun r => decide (w.end_ ≤ r.1))).take n_look_ahead_rows }

/-- The order `df.sort_index()` sorts by: comparison of index timestamps. -/
def byIndex (a b : Int × Int) : Prop := a.1 ≤ b.1

instance : DecidableRel byIndex := fun a b => Int.decLe a.1 b.1

instance : IsTotal (Int × Int) byIndex := ⟨fun a b => Int.le_total a.1 b.1⟩

instance : IsTrans (Int × Int) byIndex := ⟨fun _ _ _ h1 h2 => Int.le_trans h1 h2⟩

/-- The whole-channel DataFrame built by `load` before any slicing: sort the
raw rows by timestamp (`df.sort_index()` — "raw REDD data isn't always
sorted"; the sort is modelled as insertion sort, since only sortedness and
being a permutation of the rows are relied on), convert the index to
nanoseconds, and record the covered span `TimeFrame(df.index[0],
df.index[-1])` with `include_end = True`.  On an empty frame `df.index[0]`
raises `IndexError`, hence `none`. -/
def whole_df (raw : List (Int × Int)) : Option DF :=
  match (List.insertionSort byIndex raw).map to_ns with
  | [] => none
  | r :: rs =>
    some { rows := r :: rs,
           timeframe := { start := r.1,
                          end_ := ((r :: rs).getLast (List.cons_ne_nil r rs)).1,
                          include_end := true } }

/-- `REDDStore.load`, with the on-disk state explicit and the lazily-yielded
generator materialised as the list of DataFrames it produces (all failures
happen before the first yield).  Mirrors the source's order: house-directory
assertion (`_path_for_house`), filename formatting (a `None` meter cannot be
formatted with `{:d}`), file read (`IOError` when missing), sort/convert/span,
then `if periods:` — one slice per window for a non-empty window list,
otherwise the whole frame as the single segment. -/
def load (fs : Fs) (key : Key) (periods : Option (List TimeFrame)) :
    Except Err (List DF) :=
  match fs.house key.building with
  | none => .error .assertionError
  | some house =>
    match key.meter with
    | none => .error .typeError
    | some m =>
      match house.channelFile m with
      | none => .error (.ioError ("channel_" ++ toString m ++ ".dat"))
      | some raw =>
        match whole_df raw with
        | none => .error .indexError
        | some df =>
          match periods with
          | some (p :: ps) => .ok ((p :: ps).map (fun q => q.slice df))
          | _ => .ok [df]

/-- The number of channels with numbers in `range(1, m)` whose label-file
entry carries the label `lab`: with channels numbered from 1 this is the
count of channels strictly below `m` in the label file sharing the label. -/
def channels_below_with_label (labels : List (Nat × String)) (m : Nat)
    (lab : String) : Nat :=
  ((List.range' 1 (m - 1)).filter (fun i => lookupLabel labels i == some lab)).length

end Redd

namespace Redd

theorem instance_loop_ok (labels : List (Nat × String)) (lab : String) :
    ∀ (is : List Nat) (acc : Nat),
      (∀ i ∈ is, (lookupLabel labels i).isSome) →
      instance_loop labels lab is acc =
        .ok (acc + (is.filter (fun i => lookupLabel labels i == some lab)).length) := by
  intro is
  induction is with
  | nil => intro acc _; simp [instance_loop]
  | cons i rest ih =>
    intro acc h
    have hi : (lookupLabel labels i).isSome := h i (by simp)
    obtain ⟨l, hl⟩ := Option.isSome_iff_exists.mp hi
    have hrest : ∀ j ∈ rest, (lookupLabel labels j).isSome := by
      intro j hj; exact h j (by simp [hj])
    rw [instance_loop, hl]
    rcases hbeq : l == lab with _ | _
    · have : (lookupLabel labels i == some lab) = false := by
        rw [hl]; simpa using hbeq
      simp [hbeq, ih acc hrest, List.filter_cons, this]
    · have : (lookupLabel labels i == some lab) = true := by
        rw [hl]; simpa using hbeq
      simp only [hbeq, if_true, ih (acc + 1) hrest, List.filter_cons, this,
        List.length_cons]
      congr 1
      omega

theorem appliance_instance_ok (labels : List (Nat × String)) (lab : String)
    (m : Nat) (hc : ∀ i ∈ List.range' 1 (m - 1), (lookupLabel labels i).isSome) :
    appliance_instance labels lab m =
      .ok (1 + channels_below_with_label labels m lab) := by
  unfold appliance_instance channels_below_with_label
  exact instance_loop_ok labels lab (List.range' 1 (m - 1)) 1 hc

theorem assign_instances_ok (labels : List (Nat × String)) (lab : String)
    (m n : Nat) (h : appliance_instance labels lab m = .ok n) :
    ∀ apps : List Appliance,
      assign_instances labels lab m apps =
        .ok (apps.map (fun a => { a with inst := some n })) := by
  intro apps
  induction apps with
  | nil => rfl
  | cons a rest ih =>
    simp [assign_instances, h, ih, Except.bind, Bind.bind, Pure.pure, Except.pure]

/-- C1 (amended): for a meter `m ≥ 3` whose house's label file contains every
channel number `1 … m-1`, `load_metadata` assigns each appliance listed in the
label's static-table entry the instance number
`1 + channels_below_with_label`, i.e. one plus the count of lower-numbered
channels in the label file carrying the same label. -/
theorem C1_instance_numbers (fs : Fs) (b m : Nat) (u : Option String)
    (house : House) (lines : List (Nat × String)) (lab : String)
    (entry : LabelMapEntry) (apps : List Appliance)
    (hb1 : 1 ≤ b) (hb2 : b ≤ 6) (hm : 3 ≤ m)
    (hh : fs.house b = some house) (hf : house.labelsFile = some lines)
    (hcomplete : ∀ i ∈ List.range' 1 (m - 1),
      (lookupLabel (load_labels lines) i).isSome)
    (hlab : lookupLabel (load_labels lines) m = some lab)
    (hentry : lookupMapEntry MAP_REDD_LABELS_TO_NILMTK lab = some entry)
    (happs : entry.appliances = some apps) :
    load_metadata MAP_REDD_LABELS_TO_NILMTK fs
        (some { building := b, meter := some m, utility := u }) =
      .ok (.meter
        { device_model := "eMonitor", inst := m, building := b, dataset := "REDD",
          submeter_of := some 1,
          appliances := some (apps.map (fun a =>
            { a with inst := some (1 + channels_below_with_label (load_labels lines) m lab) })),
          room := entry.room, category := entry.category }) := by
  have hm1 : m ≠ 1 := by omega
  have hm2 : m ≠ 2 := by omega
  have hai := appliance_instance_ok (load_labels lines) lab m hcomplete
  have has := assign_instances_ok (load_labels lines) lab m
    (1 + channels_below_with_label (load_labels lines) m lab) hai apps
  simp only [load_metadata, hb1, hb2, and_self, not_true_eq_false, if_false,
    hm1, hm2, if_neg, hh, hf, hlab, hentry, updateWithEntry, happs, has]
  cases hr : entry.room <;> cases hc : entry.category <;>
    simp [hr, hc, has, hb1, hb2]

/-- The house used for C1's counterexample: its label file skips channel 2
(channels 1, 3 and 5 only), with `smoke_alarms` on channels 3 and 5. -/
def fsC1 : Fs :=
  ⟨[(1, { labelsFile := some [(1, "lighting"), (3, "smoke_alarms"),
                              (5, "smoke_alarms")] })]⟩

/-- C1 counterexample: on `fsC1`, meter 5 is present in the label file, its
label `smoke_alarms` has a static-table entry listing one appliance, and one
lower-numbered channel (channel 3) shares the label — so the claim predicts
metadata with appliance instance 2.  The code instead raises `KeyError(2)`
while scanning `labels[i]` over all `i < 5`, because channel 2 is absent. -/
theorem C1_counterexample :
    load_metadata MAP_REDD_LABELS_TO_NILMTK fsC1
        (some { building := 1, meter := some 5, utility := none }) =
      .error (.keyErrorNat 2) ∧
    load_metadata MAP_REDD_LABELS_TO_NILMTK fsC1
        (some { building := 1, meter := some 5, utility := none }) ≠
      .ok (.meter
        { device_model := "eMonitor", inst := 5, building := 1, dataset := "REDD",
          submeter_of := some 1,
          appliances := some [{ type := "smoke alarm", multiple := some true,
                                inst := some 2 }] }) := by
  constructor
  · rfl
  · decide

/-- The house used for C1's witness: a gap-free label file for channels 1-9
with `smoke_alarms` at channel positions 5 and 9. -/
def fsC1w : Fs :=
  ⟨[(1, { labelsFile := some [(1, "lighting"), (2, "lighting"),
                              (3, "microwave"), (4, "oven"),
                              (5, "smoke_alarms"), (6, "stove"),
                              (7, "refrigerator"), (8, "dishwaser"),
                              (9, "smoke_alarms")] })]⟩

theorem C1_instance_numbers_witness :
    load_metadata MAP_REDD_LABELS_TO_NILMTK fsC1w
        (some { building := 1, meter := some 9, utility := none }) =
      .ok (.meter
        { device_model := "eMonitor", inst := 9, building := 1, dataset := "REDD",
          submeter_of := some 1,
          appliances := some [{ type := "smoke alarm", multiple := some true,
                                inst := some 2 }],
          room := none, category := none }) := by
  have h := C1_instance_numbers fsC1w 1 9 none
    { labelsFile := some [(1, "lighting"), (2, "lighting"), (3, "microwave"),
                          (4, "oven"), (5, "smoke_alarms"), (6, "stove"),
                          (7, "refrigerator"), (8, "dishwaser"),
                          (9, "smoke_alarms")] }
    [(1, "lighting"), (2, "lighting"), (3, "microwave"), (4, "oven"),
     (5, "smoke_alarms"), (6, "stove"), (7, "refrigerator"), (8, "dishwaser"),
     (9, "smoke_alarms")]
    "smoke_alarms"
    { appliances := some [{ type := "smoke alarm", multiple := some true }] }
    [{ type := "smoke alarm", multiple := some true }]
    (by decide) (by decide) (by decide) rfl rfl (by decide) rfl rfl rfl
  exact h

/-- C2: for every building 1-6, `load_metadata` for meter 1 marks the meter as
the site meter, lists channel 2 as an additional channel, and reports device
model `REDD_whole_house` — for every static table, every on-disk state and
every utility component of the key. -/
theorem C2_meter1_site_meter (table : List (String × LabelMapEntry)) (fs : Fs)
    (b : Nat) (u : Option String) (h1 : 1 ≤ b) (h2 : b ≤ 6) :
    load_metadata table fs (some { building := b, meter := some 1, utility := u }) =
      .ok (.meter { device_model := "REDD_whole_house", inst := 1, building := b,
                    dataset := "REDD", site_meter := some true,
                    additional_channels := some [2] }) := by
  simp [load_metadata, h1, h2]

theorem C2_meter1_site_meter_witness :
    (1 ≤ 3 ∧ 3 ≤ 6) ∧
    load_metadata [] ⟨[]⟩ (some { building := 3, meter := some 1, utility := none }) =
      .ok (.meter { device_model := "REDD_whole_house", inst := 1, building := 3,
                    dataset := "REDD", site_meter := some true,
                    additional_channels := some [2] }) :=
  ⟨by decide, C2_meter1_site_meter [] ⟨[]⟩ 3 none (by decide) (by decide)⟩

/-- C3: for every building 1-6, `load_metadata` for meter 2 always raises
`ValueError("Mains channel 2 is loaded by meter1.")`, regardless of the
static table and of the on-disk state (the label file is never read). -/
theorem C3_meter2_always_fails (table : List (String × LabelMapEntry)) (fs : Fs)
    (b : Nat) (u : Option String) (h1 : 1 ≤ b) (h2 : b ≤ 6) :
    load_metadata table fs (some { building := b, meter := some 2, utility := u }) =
      .error (.valueError "Mains channel 2 is loaded by meter1.") := by
  simp [load_metadata, h1, h2]

theorem C3_meter2_always_fails_witness :
    (1 ≤ 5 ∧ 5 ≤ 6) ∧
    load_metadata [] ⟨[]⟩ (some { building := 5, meter := some 2, utility := none }) =
      .error (.valueError "Mains channel 2 is loaded by meter1.") :=
  ⟨by decide, C3_meter2_always_fails [] ⟨[]⟩ 5 none (by decide) (by decide)⟩

/-- C4 (amended): for a meter `m ≥ 3` of a valid building whose house
directory and label file exist, an `m` absent from the label file fails with
the descriptive invalid-input error the claim states; but an `m` whose label
has no static-table entry fails with a key-lookup error (`KeyError` on the
table subscript), not an invalid-input error. -/
theorem C4_missing_meter_or_label (table : List (String × LabelMapEntry))
    (fs : Fs) (b m : Nat) (u : Option String) (house : House)
    (lines : List (Nat × String))
    (hb1 : 1 ≤ b) (hb2 : b ≤ 6) (hm : 3 ≤ m)
    (hh : fs.house b = some house) (hf : house.labelsFile = some lines) :
    (lookupLabel (load_labels lines) m = none →
      load_metadata table fs (some { building := b, meter := some m, utility := u }) =
        .error (.valueError (toString m ++
          " is not a recognised meter instance for building " ++ toString b ++ "."))) ∧
    (∀ lab, lookupLabel (load_labels lines) m = some lab →
      lookupMapEntry table lab = none →
      load_metadata table fs (some { building := b, meter := some m, utility := u }) =
        .error (.keyErrorStr lab) ∧
      isInvalidInput (load_metadata table fs
        (some { building := b, meter := some m, utility := u })) = false) := by
  have hm1 : m ≠ 1 := by omega
  have hm2 : m ≠ 2 := by omega
  constructor
  · intro hnone
    simp [load_metadata, hb1, hb2, hm1, hm2, hh, hf, hnone]
  · intro lab hsome hnoentry
    constructor
    · simp [load_metadata, hb1, hb2, hm1, hm2, hh, hf, hsome, hnoentry]
    · have : load_metadata table fs
          (some { building := b, meter := some m, utility := u }) =
          .error (.keyErrorStr lab) := by
        simp [load_metadata, hb1, hb2, hm1, hm2, hh, hf, hsome, hnoentry]
      rw [this]
      rfl

/-- The house used for C4's counterexample and witness: channel 3 carries a
label with no entry in the static mapping table. -/
def fsC4 : Fs :=
  ⟨[(1, { labelsFile := some [(1, "mains"), (2, "mains"),
                              (3, "frobnicator")] })]⟩

/-- C4 counterexample: on `fsC4`, meter 3's label `frobnicator` has no
static-table entry; the claim says the call fails with an invalid-input
error, but it fails with `KeyError('frobnicator')`, which is not an
invalid-input error. -/
theorem C4_counterexample :
    load_metadata MAP_REDD_LABELS_TO_NILMTK fsC4
        (some { building := 1, meter := some 3, utility := none }) =
      .error (.keyErrorStr "frobnicator") ∧
    isInvalidInput (load_metadata MAP_REDD_LABELS_TO_NILMTK fsC4
        (some { building := 1, meter := some 3, utility := none })) = false := by
  constructor
  · rfl
  · rfl

theorem C4_missing_meter_or_label_witness :
    load_metadata MAP_REDD_LABELS_TO_NILMTK fsC4
        (some { building := 1, meter := some 7, utility := none }) =
      .error (.valueError "7 is not a recognised meter instance for building 1.") ∧
    load_metadata MAP_REDD_LABELS_TO_NILMTK fsC4
        (some { building := 1, meter := some 3, utility := none }) =
      .error (.keyErrorStr "frobnicator") := by
  constructor
  · exact (C4_missing_meter_or_label MAP_REDD_LABELS_TO_NILMTK fsC4 1 7 none
      { labelsFile := some [(1, "mains"), (2, "mains"), (3, "frobnicator")] }
      [(1, "mains"), (2, "mains"), (3, "frobnicator")]
      (by decide) (by decide) (by decide) rfl rfl).1 rfl
  · exact ((C4_missing_meter_or_label MAP_REDD_LABELS_TO_NILMTK fsC4 1 3 none
      { labelsFile := some [(1, "mains"), (2, "mains"), (3, "frobnicator")] }
      [(1, "mains"), (2, "mains"), (3, "frobnicator")]
      (by decide) (by decide) (by decide) rfl rfl).2 "frobnicator" rfl rfl).1

/-- C5: `elements_below_key` at the root returns exactly
`building1 … building6`, in order, for every on-disk state. -/
theorem C5_root_listing (fs : Fs) :
    elements_below_key fs none =
      .ok ["building1", "building2", "building3", "building4", "building5",
           "building6"] := rfl

theorem toDigitsCore_length_ge (b : Nat) :
    ∀ (fuel n : Nat) (ds : List Char),
      ds.length + 1 ≤ (Nat.toDigitsCore b (fuel + 1) n ds).length := by
  intro fuel
  induction fuel with
  | zero =>
    intro n ds
    rw [Nat.toDigitsCore]
    split
    · simp
    · rw [Nat.toDigitsCore]
      simp
  | succ f ih =>
    intro n ds
    rw [Nat.toDigitsCore]
    split
    · simp
    · have h2 := ih (n / b) (Nat.digitChar (n % b) :: ds)
      simp only [List.length_cons] at h2
      omega

theorem repr_length_ge_two (n : Nat) (h : 10 ≤ n) : 2 ≤ (Nat.repr n).length := by
  obtain ⟨f, rfl⟩ : ∃ f, n = f + 1 := ⟨n - 1, by omega⟩
  have hdiv : ¬ ((f + 1) / 10 = 0) := Nat.ne_of_gt (Nat.div_pos h (by omega))
  have hrw : Nat.repr (f + 1) =
      (Nat.toDigitsCore 10 (f + 1) ((f + 1) / 10)
        [Nat.digitChar ((f + 1) % 10)]).asString := by
    show (Nat.toDigits 10 (f + 1)).asString = _
    rw [Nat.toDigits, Nat.toDigitsCore]
    simp [hdiv]
  rw [hrw]
  have hlen := toDigitsCore_length_ge 10 f ((f + 1) / 10)
    [Nat.digitChar ((f + 1) % 10)]
  simpa using hlen

theorem repr_eq_two (n : Nat) (h : Nat.repr n = "2") : n = 2 := by
  rcases Nat.lt_or_ge n 10 with h10 | h10
  · interval_cases n <;> first | rfl | exact absurd h (by decide)
  · have h2 := repr_length_ge_two n h10
    rw [h] at h2
    exact absurd h2 (by decide)

theorem meter_name_eq_two (n : Nat) (h : "meter" ++ Nat.repr n = "meter2") :
    n = 2 := by
  apply repr_eq_two
  apply String.ext
  have hd := congrArg String.data h
  rw [String.data_append] at hd
  exact List.append_cancel_left hd

/-- C6: for every building 1-6 with an existing house directory and label
file, `elements_below_key` at the utility level returns one meter identifier
per channel in the label file except channel 2, in file order, and the result
never contains `meter2`. -/
theorem C6_utility_listing (fs : Fs) (b : Nat) (ut : String) (house : House)
    (lines : List (Nat × String))
    (hb1 : 1 ≤ b) (hb2 : b ≤ 6)
    (hh : fs.house b = some house) (hf : house.labelsFile = some lines) :
    elements_below_key fs
        (some { building := b, meter := none, utility := some ut }) =
      .ok (((load_labels lines).filter (fun p => !([2].contains p.1))).map
        (fun p => "meter" ++ toString p.1)) ∧
    "meter2" ∉ (((load_labels lines).filter (fun p => !([2].contains p.1))).map
        (fun p => "meter" ++ toString p.1)) := by
  constructor
  · simp [elements_below_key, hb1, hb2, hh, hf]
  · intro hmem
    obtain ⟨p, hp, heq⟩ := List.mem_map.mp hmem
    have hne : p.1 ≠ 2 := by
      have h2 := (List.mem_filter.mp hp).2
      simpa using h2
    exact hne (meter_name_eq_two p.1 heq)

/-- The house used for C6's witness: four channels including both mains. -/
def fsC6 : Fs :=
  ⟨[(2, { labelsFile := some [(1, "mains"), (2, "mains"), (3, "lighting"),
                              (4, "microwave")] })]⟩

theorem C6_utility_listing_witness :
    elements_below_key fsC6
        (some { building := 2, meter := none, utility := some "electric" }) =
      .ok ["meter1", "meter3", "meter4"] ∧
    "meter2" ∉ ["meter1", "meter3", "meter4"] :=
  C6_utility_listing fsC6 2 "electric"
    { labelsFile := some [(1, "mains"), (2, "mains"), (3, "lighting"),
                          (4, "microwave")] }
    [(1, "mains"), (2, "mains"), (3, "lighting"), (4, "microwave")]
    (by decide) (by decide) rfl rfl

theorem whole_df_rows (raw : List (Int × Int)) (df : DF)
    (h : whole_df raw = some df) :
    df.rows = (List.insertionSort byIndex raw).map to_ns := by
  unfold whole_df at h
  split at h
  · exact absurd h (by simp)
  · next r rs heq =>
    cases h
    exact heq.symm

theorem whole_df_sorted (raw : List (Int × Int)) (df : DF)
    (h : whole_df raw = some df) :
    List.Pairwise (fun a b : Int × Int => a.1 ≤ b.1) df.rows := by
  rw [whole_df_rows raw df h]
  have hs : List.Pairwise byIndex (List.insertionSort byIndex raw) :=
    List.sorted_insertionSort byIndex raw
  exact hs.map to_ns (fun a b hab => by
    show a.1 * NANOS_PER_SEC ≤ b.1 * NANOS_PER_SEC
    have : a.1 ≤ b.1 := hab
    unfold NANOS_PER_SEC
    omega)

theorem slice_rows_sorted (w : TimeFrame) (df : DF)
    (h : List.Pairwise (fun a b : Int × Int => a.1 ≤ b.1) df.rows) :
    List.Pairwise (fun a b : Int × Int => a.1 ≤ b.1) (w.slice df).rows :=
  List.Pairwise.sublist (List.filter_sublist _) h

/-- C7: whatever the order of the rows on disk, every data segment yielded by
`load` is sorted ascending by timestamp. -/
theorem C7_segments_sorted (fs : Fs) (key : Key)
    (periods : Option (List TimeFrame)) (segs : List DF)
    (h : load fs key periods = .ok segs) :
    ∀ df ∈ segs, List.Pairwise (fun a b : Int × Int => a.1 ≤ b.1) df.rows := by
  unfold load at h
  cases hH : fs.house key.building with
  | none => simp only [hH] at h; exact absurd h (by simp)
  | some house =>
    simp only [hH] at h
    cases hm : key.meter with
    | none => simp only [hm] at h; exact absurd h (by simp)
    | some m =>
      simp only [hm] at h
      cases hc : house.channelFile m with
      | none => simp only [hc] at h; exact absurd h (by simp)
      | some raw =>
        simp only [hc] at h
        cases hdf : whole_df raw with
        | none => simp only [hdf] at h; exact absurd h (by simp)
        | some df =>
          simp only [hdf] at h
          have hsorted := whole_df_sorted raw df hdf
          rcases periods with _ | ⟨_ | ⟨p, ps⟩⟩
          · simp only [Except.ok.injEq] at h
            subst h
            intro d hd
            rw [List.mem_singleton] at hd
            subst hd
            exact hsorted
          · simp only [Except.ok.injEq] at h
            subst h
            intro d hd
            rw [List.mem_singleton] at hd
            subst hd
            exact hsorted
          · simp only [Except.ok.injEq] at h
            subst h
            intro d hd
            obtain ⟨q, _, rfl⟩ := List.mem_map.mp hd
            exact slice_rows_sorted q df hsorted

/-- The store for C7's witness: channel 3 of house 1 holds out-of-order
rows. -/
def fsC7 : Fs :=
  ⟨[(1, { channelFiles := [(3, [(5, 10), (1, 20), (3, 4)])] })]⟩

/-- The single segment `load` yields on `fsC7`. -/
def dfC7 : DF :=
  { rows := [(1000000000, 20), (3000000000, 4), (5000000000, 10)],
    timeframe := { start := 1000000000, end_ := 5000000000, include_end := true } }

theorem C7_segments_sorted_witness :
    List.Pairwise (fun a b : Int × Int => a.1 ≤ b.1) dfC7.rows :=
  C7_segments_sorted fsC7 { building := 1, meter := some 3 } none [dfC7] rfl
    dfC7 (by simp)

/-- C8: with a non-empty window list, `load` yields exactly one segment per
window, in list order, each restricted to its window; with no window list it
yields exactly one segment holding the whole channel's data (as a
permutation of the converted rows). -/
theorem C8_windowed_segments (fs : Fs) (b m : Nat) (u : Option String)
    (house : House) (raw : List (Int × Int)) (df : DF) (ps : List TimeFrame)
    (hh : fs.house b = some house) (hc : house.channelFile m = some raw)
    (hdf : whole_df raw = some df) (hps : ps ≠ []) :
    load fs { building := b, meter := some m, utility := u } (some ps) =
      .ok (ps.map (fun p => p.slice df)) ∧
    (ps.map (fun p => p.slice df)).length = ps.length ∧
    (∀ p : TimeFrame, ∀ r ∈ (p.slice df).rows, p.start ≤ r.1 ∧ r.1 ≤ p.end_) ∧
    load fs { building := b, meter := some m, utility := u } none = .ok [df] ∧
    df.rows.Perm (raw.map to_ns) := by
  refine ⟨?_, List.length_map _ _, ?_, ?_, ?_⟩
  · unfold load
    simp only [hh, hc, hdf]
    rcases ps with _ | ⟨p, ps⟩
    · exact absurd rfl hps
    · rfl
  · intro p r hr
    have hf := List.mem_filter.mp hr
    have hcond := hf.2
    simp only [Bool.and_eq_true, decide_eq_true_eq] at hcond
    exact hcond
  · unfold load
    simp only [hh, hc, hdf]
  · rw [whole_df_rows raw df hdf]
    exact (List.perm_insertionSort byIndex raw).map to_ns

/-- The store for C8's witness: same channel data as C7's, under its own
name so the claims stay independent. -/
def fsC8 : Fs :=
  ⟨[(1, { channelFiles := [(3, [(5, 10), (1, 20), (3, 4)])] })]⟩

/-- The whole-channel segment `load` builds on `fsC8`. -/
def dfC8 : DF :=
  { rows := [(1000000000, 20), (3000000000, 4), (5000000000, 10)],
    timeframe := { start := 1000000000, end_ := 5000000000, include_end := true } }

theorem C8_windowed_segments_witness :
    load fsC8 { building := 1, meter := some 3, utility := none }
        (some [{ start := 1000000000, end_ := 3000000000 }]) =
      .ok ([({ start := 1000000000, end_ := 3000000000 } : TimeFrame)].map
        (fun p => p.slice dfC8)) ∧
    (([({ start := 1000000000, end_ := 3000000000 } : TimeFrame)].map
        (fun p => p.slice dfC8))).length =
      [({ start := 1000000000, end_ := 3000000000 } : TimeFrame)].length ∧
    (∀ p : TimeFrame, ∀ r ∈ (p.slice dfC8).rows, p.start ≤ r.1 ∧ r.1 ≤ p.end_) ∧
    load fsC8 { building := 1, meter := some 3, utility := none } none =
      .ok [dfC8] ∧
    dfC8.rows.Perm ([(5, 10), (1, 20), (3, 4)].map to_ns) :=
  C8_windowed_segments fsC8 1 3 none
    { channelFiles := [(3, [(5, 10), (1, 20), (3, 4)])] }
    [(5, 10), (1, 20), (3, 4)] dfC8
    [{ start := 1000000000, end_ := 3000000000 }]
    rfl rfl rfl (by decide)

/-- C9 (amended): a key whose house directory is missing makes `load` fail
with an assertion failure, and a key whose channel file is missing makes it
fail with an I/O error — in neither case an invalid-input error. -/
theorem C9_missing_paths (fs : Fs) (key : Key)
    (periods : Option (List TimeFrame)) :
    (fs.house key.building = none →
      load fs key periods = .error .assertionError ∧
      isInvalidInput (load fs key periods) = false) ∧
    (∀ house m, fs.house key.building = some house → key.meter = some m →
      house.channelFile m = none →
      load fs key periods = .error (.ioError ("channel_" ++ toString m ++ ".dat")) ∧
      isInvalidInput (load fs key periods) = false) := by
  constructor
  · intro hnone
    have hload : load fs key periods = .error .assertionError := by
      unfold load; simp only [hnone]
    exact ⟨hload, by rw [hload]; rfl⟩
  · intro house m hh hm hc
    have hload : load fs key periods =
        .error (.ioError ("channel_" ++ toString m ++ ".dat")) := by
      unfold load; simp only [hh, hm, hc]
    exact ⟨hload, by rw [hload]; rfl⟩

/-- The store for C9's counterexample: only `house_1` exists, and it has no
channel files at all. -/
def fsC9 : Fs := ⟨[(1, { labelsFile := none, channelFiles := [] })]⟩

/-- C9 counterexample: a key for the missing `house_2` directory fails with
an assertion failure, and a key for the missing `channel_3.dat` of `house_1`
fails with an I/O error; neither failure is an invalid-input error, contrary
to the claim. -/
theorem C9_counterexample :
    load fsC9 { building := 2, meter := some 3 } none = .error .assertionError ∧
    isInvalidInput (load fsC9 { building := 2, meter := some 3 } none) = false ∧
    load fsC9 { building := 1, meter := some 3 } none =
      .error (.ioError "channel_3.dat") ∧
    isInvalidInput (load fsC9 { building := 1, meter := some 3 } none) = false :=
  ⟨rfl, rfl, rfl, rfl⟩

/-- The store for C9's witness. -/
def fsC9w : Fs := ⟨[(4, { labelsFile := none, channelFiles := [] })]⟩

theorem C9_missing_paths_witness :
    (load fsC9w { building := 5, meter := some 6 } none = .error .assertionError ∧
      isInvalidInput (load fsC9w { building := 5, meter := some 6 } none) = false) ∧
    (load fsC9w { building := 4, meter := some 6 } none =
        .error (.ioError "channel_6.dat") ∧
      isInvalidInput (load fsC9w { building := 4, meter := some 6 } none) = false) :=
  ⟨(C9_missing_paths fsC9w { building := 5, meter := some 6 } none).1 rfl,
   (C9_missing_paths fsC9w { building := 4, meter := some 6 } none).2
     { labelsFile := none, channelFiles := [] } 6 rfl rfl rfl⟩

/-- C10: no call to `load_metadata` mutates the static label-mapping table:
the post-call table equals the input table, and a second call on the
post-call state returns the same metadata as the first. -/
theorem C10_table_unchanged (table : List (String × LabelMapEntry)) (fs : Fs)
    (key : Option Key) :
    (load_metadata_run table fs key).2 = table ∧
    (load_metadata_run (load_metadata_run table fs key).2 fs key).1 =
      (load_metadata_run table fs key).1 :=
  ⟨rfl, rfl⟩

end Redd
